import Mathlib

/-!
Shallow embedding of `neumai/SinkConnectors/EpsillaSink.py`.

The connector is stateless Python code talking to a remote Epsilla backend
through a generated client.  We embed it as pure Lean functions over:
  * the connector configuration (`EpsillaSink`, mirroring the pydantic fields),
  * an `Oracle` fixing, for one call, the status codes and payloads the
    backend returns (the backend is an opaque network peer, so its responses
    are universally quantified data, not computed),
  * an explicit backend state `DB` (tables with schema and records), updated
    by the natural semantics of each successful backend request, so that
    claims about remote state can be settled,
  * a `Request` trace recording every backend request the connector issues.

Python floats are modelled as `Rat` (no floating-point reasoning is needed:
vector components are only moved around and measured for length).  Python
dicts of JSON values are modelled as association lists of `JVal`.  Python
exceptions are modelled by the `PyError` sum returned through `Except`.
-/

/-- JSON-compatible metadata values (leaves only; nested containers are not
needed by any operation of the connector, which treats metadata opaquely). -/
inductive JVal where
  | str : String → JVal
  | num : Rat → JVal
  | bool : Bool → JVal
  | null : JVal
deriving DecidableEq, Repr

/-- Python truthiness of a `JVal`, as used by `x if x else ""`. -/
def JVal.truthy : JVal → Bool
  | .str s => s ≠ ""
  | .num q => q ≠ 0
  | .bool b => b
  | .null => false

/-- `neumai.Shared.NeumVector`: id, embedding vector, metadata mapping. -/
structure NeumVector where
  id : String
  vector : List Rat
  metadata : List (String × JVal)
deriving DecidableEq, Repr

/-- `neumai.Shared.NeumSearch.NeumSearchResult`. -/
structure NeumSearchResult where
  id : String
  vector : List Rat
  metadata : List (String × JVal)
  score : Rat
deriving DecidableEq, Repr

/-- The exceptions the connector can raise, plus the Python runtime errors
(`KeyError`, `IndexError`) its code can hit. -/
inductive PyError where
  | insertionException : String → PyError
  | connectionException : String → PyError
  | queryException : String → PyError
  | indexInfoException : String → PyError
  | keyError : String → PyError
  | indexError : PyError
  | typeError : String → PyError
deriving DecidableEq, Repr

/-- One column of an Epsilla table schema, as passed to `create_table`
(`{"name": ..., "dataType": ..., "dimensions": ...}`; the `dimensions`
key is only present for the vector column). -/
structure TableField where
  name : String
  dataType : String
  dimensions : Option Nat
deriving DecidableEq, Repr

/-- One record in the shape `store` encodes for `db.insert`. -/
structure EpsRecord where
  id : String
  vector : List Rat
  metadata : List (String × JVal)
  file_entry_id : JVal
deriving DecidableEq, Repr

/-- A backend request issued by the connector, recorded for the trace. -/
inductive Request where
  | listTables : Request
  | createTable : String → List TableField → Request
  | insert : String → List EpsRecord → Request
  | query : String → String → List Rat → Nat → Bool → Request
  | delete : String → String → Request
  | validate : Request
deriving DecidableEq, Repr

/-- Whether a request can mutate remote state. -/
def Request.isMutating : Request → Bool
  | .createTable _ _ => true
  | .insert _ _ => true
  | .delete _ _ => true
  | _ => false

/-- Remote backend state: the tables of the target database, each with its
name, schema and stored records. -/
structure DB where
  tables : List (String × List TableField × List EpsRecord)
deriving DecidableEq, Repr

/-- The names in the collection listing of the backend (`list_tables` result). -/
def DB.tableNames (db : DB) : List String := db.tables.map (·.1)

/-- Effect on backend state of a successful `create_table` request. -/
def DB.doCreateTable (db : DB) (name : String) (fields : List TableField) : DB :=
  ⟨db.tables ++ [(name, fields, [])]⟩

/-- Effect on backend state of a successful `insert` request. -/
def DB.doInsert (db : DB) (name : String) (recs : List EpsRecord) : DB :=
  ⟨db.tables.map fun t => if t.1 = name then (t.1, t.2.1, t.2.2 ++ recs) else t⟩

/-- One match in the `result` array of a successful `db.query` response. -/
structure QueryMatch where
  id : String
  vector : List Rat
  metadata : List (String × JVal)
  distance : Rat
deriving DecidableEq, Repr

/-- Behaviour of the backend for one connector call: status code and payload
of each kind of request.  A status of 200 is success; any other value makes
the corresponding connector-side `status_code != 200` check fire. -/
structure Oracle where
  listStatus : Nat
  createStatus : Nat
  insertStatus : Nat
  insertMessage : String
  queryStatus : Nat
  queryResult : List QueryMatch
  queryMessage : String
  deleteStatus : Nat
deriving DecidableEq, Repr

/-- The pydantic configuration fields. -/
structure EpsillaSink where
  project_id : String
  api_key : String
  db_id : String
  table_name : String
deriving DecidableEq, Repr

/-- Digits of the decimal representation read left to right, as `int(...)`. -/
def digitsToNat (cs : List Char) : Nat :=
  cs.foldl (fun n c => 10 * n + (c.toNat - 48)) 0

/-- Maximal runs of consecutive decimal digits, left to right: the matches of
the regular expression `\d+` over the character list.  `acc` holds the digits
of the run currently being read. -/
def digitRuns : List Char → List Char → List (List Char)
  | [], acc => if acc.isEmpty then [] else [acc]
  | c :: cs, acc =>
    if c.isDigit then digitRuns cs (acc ++ [c])
    else if acc.isEmpty then digitRuns cs []
    else acc :: digitRuns cs []

/-- The body of `EpsillaSink._extract_numbers`:
the list comprehension `int(match) for match in findall(r"\d+", input_string)`.
Note the method is defined without a `self` parameter and without a
`staticmethod` decorator, so the bound call `self._extract_numbers(msg)` in
`store` passes two arguments to this one-parameter function and raises
`TypeError` before the body ever runs; this definition models the body as
invoked correctly with one argument. -/
def extractNumbers (input_string : String) : List Nat :=
  (digitRuns input_string.data []).map digitsToNat

/-- The `table_fields` literal `store` passes to `db.create_table`. -/
def schemaFields (dimensions : Nat) : List TableField :=
  [ { name := "id", dataType := "STRING", dimensions := none }
  , { name := "vector", dataType := "VECTOR_FLOAT", dimensions := some dimensions }
  , { name := "metadata", dataType := "JSON", dimensions := none }
  , { name := "file_entry_id", dataType := "STRING", dimensions := none } ]

/-- The body of the encoding loop of `store` for one record:
`{"id": vec.id, "vector": vec.vector,
  "metadata": vec.metadata if vec.metadata else {},
  "file_entry_id": vec.metadata["_file_entry_id"] if vec.metadata["_file_entry_id"] else ""}`.
The subscript `vec.metadata["_file_entry_id"]` is evaluated to test its
truthiness, so a metadata mapping without that key raises `KeyError`. -/
def encodeRecord (vec : NeumVector) : Except PyError EpsRecord :=
  match vec.metadata.lookup "_file_entry_id" with
  | none => .error (.keyError "_file_entry_id")
  | some v =>
    .ok { id := vec.id
        , vector := vec.vector
        , metadata := if vec.metadata.isEmpty then [] else vec.metadata
        , file_entry_id := if v.truthy then v else .str "" }

/-- The `for vec in vectors_to_store` loop building `datas`; the first
`KeyError` aborts the whole call. -/
def encodeRecords : List NeumVector → Except PyError (List EpsRecord)
  | [] => .ok []
  | v :: vs =>
    match encodeRecord v with
    | .error e => .error e
    | .ok r =>
      match encodeRecords vs with
      | .error e => .error e
      | .ok rs => .ok (r :: rs)

/-- Decidable equality for `Except`, needed to `decide` on outcomes. -/
def exceptDecEq {ε α : Type _} [DecidableEq ε] [DecidableEq α] :
    (a b : Except ε α) → Decidable (a = b)
  | .error e, .error f =>
    if h : e = f then .isTrue (by rw [h])
    else .isFalse (by intro hh; cases hh; exact h rfl)
  | .error _, .ok _ => .isFalse (by intro h; cases h)
  | .ok _, .error _ => .isFalse (by intro h; cases h)
  | .ok a, .ok b =>
    if h : a = b then .isTrue (by rw [h])
    else .isFalse (by intro hh; cases hh; exact h rfl)

instance {ε α : Type _} [DecidableEq ε] [DecidableEq α] : DecidableEq (Except ε α) :=
  exceptDecEq

/-- Result of running one connector operation against the backend: the value
returned or exception raised, the final backend state, and the trace of
backend requests issued. -/
structure Outcome (α : Type) where
  result : Except PyError α
  db : DB
  trace : List Request
deriving DecidableEq, Repr

/-- Tail of `EpsillaSink.store` from the encoding loop on: build `datas`,
submit one `db.insert`, check the status, then evaluate
`self._extract_numbers(response["message"])`.  That call raises
`TypeError` — `_extract_numbers` is defined without a `self` parameter,
so the bound-method call passes `self` and the message to a one-parameter
function — after the insert has already taken effect on the backend, so
the success branch updates the backend state but returns no value. -/
def storeInsert (cfg : EpsillaSink) (o : Oracle) (db : DB) (trace : List Request)
    (vectors_to_store : List NeumVector) : Outcome (List Nat) :=
  match encodeRecords vectors_to_store with
  | .error e => ⟨.error e, db, trace⟩
  | .ok datas =>
    let trace2 := trace ++ [Request.insert cfg.table_name datas]
    if o.insertStatus ≠ 200 then
      ⟨.error (.insertionException "Epsilla storing failed. Try later"), db, trace2⟩
    else
      ⟨.error (.typeError "_extract_numbers"), db.doInsert cfg.table_name datas, trace2⟩

/-- `EpsillaSink.store`.  Mirrors the Python control flow: `list_tables`,
status check, lazy `create_table` (reading `vectors_to_store[0]`, an
`IndexError` on an empty batch), the shared `status_code != 200` check
(re-testing the list status when no creation happened), then the encoding
loop and the insert (`storeInsert`). -/
def store (cfg : EpsillaSink) (o : Oracle) (db0 : DB)
    (vectors_to_store : List NeumVector) : Outcome (List Nat) :=
  let table_name := cfg.table_name
  let trace0 := [Request.listTables]
  if o.listStatus ≠ 200 then
    ⟨.error (.insertionException "Epsilla storing failed. Try later"), db0, trace0⟩
  else if table_name ∉ db0.tableNames then
    match vectors_to_store with
    | [] => ⟨.error .indexError, db0, trace0⟩
    | v0 :: _ =>
      let dimensions := v0.vector.length
      let trace1 := trace0 ++ [Request.createTable table_name (schemaFields dimensions)]
      if o.createStatus ≠ 200 then
        ⟨.error (.insertionException "Epsilla storing failed. Try later"), db0, trace1⟩
      else
        storeInsert cfg o (db0.doCreateTable table_name (schemaFields dimensions))
          trace1 vectors_to_store
  else
    storeInsert cfg o db0 trace0 vectors_to_store

/-- `EpsillaSink.search`.  The `filter` parameter is accepted but unused:
the filter-building code in the source is commented out (Epsilla does not yet support
filtering by metadata, per the source comment).  The query requests distances
(`with_distance=True`) and the matches are returned in backend order with
`score` taken from `result["@distance"]`, without truncation. -/
def search (cfg : EpsillaSink) (o : Oracle) (vector : List Rat)
    (number_of_results : Nat) (filter : List (String × JVal)) :
    Except PyError (List NeumSearchResult) × List Request :=
  let req := Request.query cfg.table_name "vector" vector number_of_results true
  if o.queryStatus ≠ 200 then
    (.error (.queryException ("Failed to query Epsilla. Exception - " ++ o.queryMessage)),
     [req])
  else
    (.ok (o.queryResult.map fun r =>
        { id := r.id, vector := r.vector, metadata := r.metadata, score := r.distance }),
     [req])

/-- Environment of `EpsillaSink.validation`: whether `cloud.Client(...)`
construction and `client.validate()` raise, and with what message. -/
structure CloudEnv where
  constructError : Option String
  validateError : Option String
deriving DecidableEq, Repr

/-- `EpsillaSink.validation`: `try` client construction and `client.validate()`;
any exception is re-raised as `EpsillaConnectionException` with the cause
interpolated; otherwise return `True`. -/
def validation (env : CloudEnv) : Except PyError Bool × List Request :=
  match env.constructError with
  | some e =>
    (.error (.connectionException
       ("Epsilla Cloud connection couldn\x27t be initialized. See exception: " ++ e)), [])
  | none =>
    match env.validateError with
    | some e =>
      (.error (.connectionException
         ("Epsilla Cloud connection couldn\x27t be initialized. See exception: " ++ e)),
       [Request.validate])
    | none => (.ok true, [Request.validate])

/-- `EpsillaSink.delete_vectors_with_file_id`: issue `db.delete` with the
filter f-string `f"file_entry_id = {file_id}"`, raise on non-success,
return `True` otherwise. -/
def delete_vectors_with_file_id (cfg : EpsillaSink) (o : Oracle) (file_id : String) :
    Except PyError Bool × List Request :=
  let req := Request.delete cfg.table_name ("file_entry_id = " ++ file_id)
  if o.deleteStatus ≠ 200 then
    (.error (.insertionException "Epsilla deletion failed. Try later"), [req])
  else
    (.ok true, [req])

/-- Occurrences of a character in a string. -/
def countChar (c : Char) (s : String) : Nat := s.data.count c

/-! ## Helper lemmas and concrete fixtures -/

/-- The encoding loop succeeds when every record has the reserved key. -/
theorem encodeRecords_ok_of_keys (vs : List NeumVector)
    (h : ∀ w ∈ vs, (w.metadata.lookup "_file_entry_id").isSome) :
    ∃ ds, encodeRecords vs = .ok ds := by
  induction vs with
  | nil => exact ⟨[], rfl⟩
  | cons v vs ih =>
    obtain ⟨jv, hjv⟩ := Option.isSome_iff_exists.mp (h v (by simp))
    obtain ⟨ds, hds⟩ := ih (fun w hw => h w (by simp [hw]))
    cases he : encodeRecord v with
    | error e => simp [encodeRecord, hjv] at he
    | ok r => exact ⟨r :: ds, by simp [encodeRecords, he, hds]⟩

/-- `storeInsert` leaves the incoming trace as a prefix and appends at most
one request, the insert itself. -/
theorem storeInsert_trace_shape (cfg : EpsillaSink) (o : Oracle) (db : DB)
    (trace : List Request) (vs : List NeumVector) :
    (storeInsert cfg o db trace vs).trace = trace
      ∨ ∃ ds, (storeInsert cfg o db trace vs).trace
          = trace ++ [Request.insert cfg.table_name ds] := by
  unfold storeInsert
  cases hds : encodeRecords vs with
  | error e => exact Or.inl rfl
  | ok ds =>
    by_cases hins : o.insertStatus = 200
    · exact Or.inr ⟨ds, by simp [hins]⟩
    · exact Or.inr ⟨ds, by simp [hins]⟩

/-- A concrete configuration for witnesses. -/
def cfgW : EpsillaSink := ⟨"proj", "key", "db", "t"⟩

/-- A backend where every call succeeds, with the spec example text as the
insert confirmation message. -/
def oracleOkW : Oracle :=
  ⟨200, 200, 200, "3 objects inserted into segment 5", 200, [], "", 200⟩

/-- A record carrying the reserved `_file_entry_id` metadata key. -/
def vecW : NeumVector := ⟨"a", [1], [("_file_entry_id", JVal.str "f")]⟩

/-! ## Claims -/

/-- C1 (evaluation at the failing input): on a valid one-record batch with
every backend call succeeding and the confirmation message of the spec
example, `store` does not return the extracted integers: after the insert
has taken effect it raises `TypeError` at
`self._extract_numbers(response["message"])`, because `_extract_numbers`
is defined without a `self` parameter.  The function body itself, invoked
correctly on the message, would return `[3, 5]` as the claim intends. -/
theorem store_typeerror_on_success_path :
    (store cfgW oracleOkW ⟨[]⟩ [vecW]).result = .error (.typeError "_extract_numbers")
      ∧ extractNumbers "3 objects inserted into segment 5" = [3, 5] := by decide

/-- A backend where listing and creation succeed but insertion fails. -/
def oracleInsertFail : Oracle := ⟨200, 200, 500, "", 200, [], "", 200⟩

/-- C2 counterexample: with the table absent, listing and creation
succeeding and insertion failing, `store` raises `InsertionException` yet
the remote state is NOT unchanged — the newly created collection persists
after the exception. -/
theorem store_created_table_persists_after_failure :
    (store cfgW oracleInsertFail ⟨[]⟩ [vecW]).result
        = .error (.insertionException "Epsilla storing failed. Try later")
      ∧ (store cfgW oracleInsertFail ⟨[]⟩ [vecW]).db ≠ (⟨[]⟩ : DB) := by decide

/-- C2 (amended): whenever a backend call made by `store` returns a
non-success status, `store` raises `InsertionException`; no partial record
insert is visible (the pre-existing tables keep exactly their schema and
records), but a collection newly created during the call may persist. -/
theorem store_failure_raises_insertion_exception (cfg : EpsillaSink) (o : Oracle)
    (db0 : DB) (v : NeumVector) (vs : List NeumVector)
    (hkeys : ∀ w ∈ v :: vs, (w.metadata.lookup "_file_entry_id").isSome)
    (hfail : ¬ (o.listStatus = 200
        ∧ (cfg.table_name ∈ db0.tableNames ∨ o.createStatus = 200)
        ∧ o.insertStatus = 200)) :
    (store cfg o db0 (v :: vs)).result
        = .error (.insertionException "Epsilla storing failed. Try later")
      ∧ ((store cfg o db0 (v :: vs)).db.tables = db0.tables
         ∨ (store cfg o db0 (v :: vs)).db.tables
             = db0.tables ++ [(cfg.table_name, schemaFields v.vector.length, [])]) := by
  obtain ⟨ds, hds⟩ := encodeRecords_ok_of_keys _ hkeys
  by_cases hl : o.listStatus = 200
  · by_cases hmem : cfg.table_name ∈ db0.tableNames
    · have hins : o.insertStatus ≠ 200 := by tauto
      simp [store, hl, hmem, storeInsert, hds, hins]
    · by_cases hc : o.createStatus = 200
      · have hins : o.insertStatus ≠ 200 := by tauto
        simp [store, hl, hmem, hc, storeInsert, hds, hins, DB.doCreateTable]
      · simp [store, hl, hmem, hc]
  · simp [store, hl]

/-- A backend whose collection listing fails. -/
def oracleListFail : Oracle := ⟨500, 200, 200, "", 200, [], "", 200⟩

/-- Witness for amended C2: a failing listing raises `InsertionException`. -/
theorem store_failure_raises_insertion_exception_witness :
    (store cfgW oracleListFail ⟨[]⟩ [vecW]).result
      = .error (.insertionException "Epsilla storing failed. Try later") :=
  (store_failure_raises_insertion_exception cfgW oracleListFail ⟨[]⟩ vecW []
    (by decide) (by decide)).1

/-- A pre-existing backend state already holding the target table. -/
def dbWithTableW : DB := ⟨[("t", schemaFields 1, [])]⟩

/-- A record whose metadata mapping is empty (no `_file_entry_id` key). -/
def vecMissingKey : NeumVector := ⟨"b", [1], []⟩

/-- C3 (evaluation at the failing input): a record whose metadata lacks the
`_file_entry_id` key makes the encoding loop of `store` fail with a
`KeyError`-class access, instead of substituting the empty string. -/
theorem store_keyerror_on_missing_file_entry_id :
    (store cfgW oracleOkW dbWithTableW [vecMissingKey]).result
      = .error (.keyError "_file_entry_id") := by decide

/-- C4: for every non-empty batch, when the listing succeeds, `store` issues
a creation request with exactly the four fixed columns — id STRING, vector
VECTOR_FLOAT of the first record dimensionality, metadata JSON,
file_entry_id STRING — exactly when the target name is absent from the
listing; when the name is present no creation request is issued. -/
theorem store_lazy_table_creation (cfg : EpsillaSink) (o : Oracle) (db0 : DB)
    (v : NeumVector) (vs : List NeumVector)
    (hlist : o.listStatus = 200) :
    (cfg.table_name ∉ db0.tableNames →
        Request.createTable cfg.table_name
            [ { name := "id", dataType := "STRING", dimensions := none }
            , { name := "vector", dataType := "VECTOR_FLOAT",
                dimensions := some v.vector.length }
            , { name := "metadata", dataType := "JSON", dimensions := none }
            , { name := "file_entry_id", dataType := "STRING", dimensions := none } ]
          ∈ (store cfg o db0 (v :: vs)).trace)
      ∧ (cfg.table_name ∈ db0.tableNames →
          ∀ n fs, Request.createTable n fs ∉ (store cfg o db0 (v :: vs)).trace) := by
  constructor
  · intro hmem
    show Request.createTable cfg.table_name (schemaFields v.vector.length)
        ∈ (store cfg o db0 (v :: vs)).trace
    by_cases hc : o.createStatus = 200
    · have hshape := storeInsert_trace_shape cfg o
        (db0.doCreateTable cfg.table_name (schemaFields v.vector.length))
        [Request.listTables,
         Request.createTable cfg.table_name (schemaFields v.vector.length)]
        (v :: vs)
      rcases hshape with hsh | ⟨ds, hsh⟩ <;>
        simp [store, hlist, hmem, hc, hsh]
    · simp [store, hlist, hmem, hc]
  · intro hmem n fs
    have hshape := storeInsert_trace_shape cfg o db0 [Request.listTables] (v :: vs)
    rcases hshape with hsh | ⟨ds, hsh⟩ <;>
      simp [store, hlist, hmem, hsh]

/-- Witness for C4: against an empty backend the creation request with the
four fixed columns and dimensionality 1 appears in the trace. -/
theorem store_lazy_table_creation_witness :
    Request.createTable "t"
        [ { name := "id", dataType := "STRING", dimensions := none }
        , { name := "vector", dataType := "VECTOR_FLOAT", dimensions := some 1 }
        , { name := "metadata", dataType := "JSON", dimensions := none }
        , { name := "file_entry_id", dataType := "STRING", dimensions := none } ]
      ∈ (store cfgW oracleOkW ⟨[]⟩ [vecW]).trace :=
  (store_lazy_table_creation cfgW oracleOkW ⟨[]⟩ vecW [] rfl).1 (by decide)

/-- C5: the `filter` argument of `search` has no effect — for any two filter
mappings the whole outcome (result and requests issued) is identical, and
the single query request fixes collection, field, vector, limit and the
distance flag independently of the filter. -/
theorem search_filter_has_no_effect (cfg : EpsillaSink) (o : Oracle)
    (v : List Rat) (k : Nat) (f1 f2 : List (String × JVal)) :
    search cfg o v k f1 = search cfg o v k f2
      ∧ (search cfg o v k f1).2
          = [Request.query cfg.table_name "vector" v k true] := by
  refine ⟨rfl, ?_⟩
  by_cases h : o.queryStatus = 200 <;> simp [search, h]

/-- A successful backend query response carrying two matches. -/
def oracleTwoMatches : Oracle :=
  ⟨200, 200, 200, "", 200,
   [⟨"x", [1], [], 0⟩, ⟨"y", [1], [], 2⟩], "", 200⟩

/-- C6 counterexample: with limit 1 and a backend response carrying two
matches, `search` returns two results — the returned sequence is not of
length at most the limit. -/
theorem search_result_can_exceed_limit :
    ∃ res, (search cfgW oracleTwoMatches [(1 : Rat)] 1 []).1 = .ok res
      ∧ ¬ res.length ≤ 1 :=
  ⟨[⟨"x", [1], [], 0⟩, ⟨"y", [1], [], 2⟩], by decide, by decide⟩

/-- C6 (amended): when the backend returns a success status, `search`
returns one `NeumSearchResult` per backend match, preserving the backend
order, with id, vector and metadata mirrored and score equal to the
reported distance; the length equals the number of backend matches (the
connector does not truncate), hence is at most the limit whenever the
backend returns at most that many matches. -/
theorem search_mirrors_backend_matches (cfg : EpsillaSink) (o : Oracle)
    (v : List Rat) (k : Nat) (f : List (String × JVal))
    (hq : o.queryStatus = 200) :
    (search cfg o v k f).1
        = .ok (o.queryResult.map fun r =>
            { id := r.id, vector := r.vector, metadata := r.metadata,
              score := r.distance })
      ∧ (∀ res, (search cfg o v k f).1 = .ok res →
          res.length = o.queryResult.length
            ∧ (o.queryResult.length ≤ k → res.length ≤ k)) := by
  have h1 : (search cfg o v k f).1
      = .ok (o.queryResult.map fun r =>
          ({ id := r.id, vector := r.vector, metadata := r.metadata,
             score := r.distance } : NeumSearchResult)) := by
    simp [search, hq]
  refine ⟨h1, ?_⟩
  intro res hres
  rw [h1] at hres
  have : res = o.queryResult.map fun r =>
      ({ id := r.id, vector := r.vector, metadata := r.metadata,
         score := r.distance } : NeumSearchResult) := by
    cases hres; rfl
  subst this
  simp

/-- Witness for amended C6: the two backend matches above are mirrored in
order with their distances as scores. -/
theorem search_mirrors_backend_matches_witness :
    (search cfgW oracleTwoMatches [(1 : Rat)] 2 []).1
      = .ok [⟨"x", [1], [], 0⟩, ⟨"y", [1], [], 2⟩] := by
  rw [(search_mirrors_backend_matches cfgW oracleTwoMatches [(1 : Rat)] 2 [] rfl).1]
  decide

/-- C7: `validation` returns true exactly when client construction and the
reachability check both succeed; on any failure it raises
`ConnectionException` with the underlying cause interpolated into the
message; it never returns false and issues no state-mutating request. -/
theorem validation_contract (env : CloudEnv) :
    ((validation env).1 = .ok true
        ↔ env.constructError = none ∧ env.validateError = none)
      ∧ (validation env).1 ≠ .ok false
      ∧ (∀ e, env.constructError = some e →
          (validation env).1 = .error (.connectionException
            ("Epsilla Cloud connection couldn\x27t be initialized. See exception: "
              ++ e)))
      ∧ (∀ e, env.constructError = none → env.validateError = some e →
          (validation env).1 = .error (.connectionException
            ("Epsilla Cloud connection couldn\x27t be initialized. See exception: "
              ++ e)))
      ∧ (∀ r ∈ (validation env).2, r.isMutating = false) := by
  rcases env with ⟨ce, ve⟩
  cases ce <;> cases ve <;> simp [validation, Request.isMutating]

/-- Witness for C7: with both client construction and the reachability
check succeeding, `validation` returns true. -/
theorem validation_contract_witness :
    (validation ⟨none, none⟩).1 = .ok true :=
  (validation_contract ⟨none, none⟩).1.mpr ⟨rfl, rfl⟩

/-- C8: `delete_vectors_with_file_id` returns true exactly on a success
status and raises `InsertionException` on any other status; these are the
only two outcomes. -/
theorem delete_two_outcomes (cfg : EpsillaSink) (o : Oracle) (fid : String) :
    (o.deleteStatus = 200 →
        (delete_vectors_with_file_id cfg o fid).1 = .ok true)
      ∧ (o.deleteStatus ≠ 200 →
          (delete_vectors_with_file_id cfg o fid).1
            = .error (.insertionException "Epsilla deletion failed. Try later"))
      ∧ ((delete_vectors_with_file_id cfg o fid).1 = .ok true
         ∨ (delete_vectors_with_file_id cfg o fid).1
             = .error (.insertionException "Epsilla deletion failed. Try later")) := by
  by_cases h : o.deleteStatus = 200 <;> simp [delete_vectors_with_file_id, h]

/-- Witness for C8: deletion against a succeeding backend returns true. -/
theorem delete_two_outcomes_witness :
    (delete_vectors_with_file_id cfgW oracleOkW "f1").1 = .ok true :=
  (delete_two_outcomes cfgW oracleOkW "f1").1 rfl

/-- C9: on an empty batch, when the listing succeeds, `store` reads the
first record only in the absent-collection branch: with the collection
present it performs no first-record access and submits an empty insert
request, while with the collection absent it fails with an out-of-bounds
(`IndexError`) access before any creation or write request is issued. -/
theorem store_empty_batch_first_access (cfg : EpsillaSink) (o : Oracle)
    (db0 : DB) (hlist : o.listStatus = 200) :
    (cfg.table_name ∈ db0.tableNames →
        (store cfg o db0 []).trace
            = [Request.listTables, Request.insert cfg.table_name []]
          ∧ (store cfg o db0 []).result ≠ .error .indexError)
      ∧ (cfg.table_name ∉ db0.tableNames →
          (store cfg o db0 []).result = .error .indexError
            ∧ (store cfg o db0 []).trace = [Request.listTables]) := by
  constructor
  · intro hmem
    constructor
    · by_cases hins : o.insertStatus = 200 <;>
        simp [store, hlist, hmem, storeInsert, encodeRecords, hins]
    · by_cases hins : o.insertStatus = 200 <;>
        simp [store, hlist, hmem, storeInsert, encodeRecords, hins]
  · intro hmem
    simp [store, hlist, hmem]

/-- Witness for C9: an empty batch against an absent collection fails with
the out-of-bounds access, having issued only the listing request. -/
theorem store_empty_batch_first_access_witness :
    (store cfgW oracleOkW ⟨[]⟩ []).result = .error .indexError
      ∧ (store cfgW oracleOkW ⟨[]⟩ []).trace = [Request.listTables] :=
  (store_empty_batch_first_access cfgW oracleOkW ⟨[]⟩ rfl).2 (by decide)

/-- C10: the delete request carries exactly the filter string obtained by
unquoted interpolation of the file id after the text
`file_entry_id = `, so a file id containing spaces adds that many
space-separated tokens to the filter expression. -/
theorem delete_filter_unquoted_interpolation (cfg : EpsillaSink) (o : Oracle)
    (fid : String) :
    (delete_vectors_with_file_id cfg o fid).2
        = [Request.delete cfg.table_name ("file_entry_id = " ++ fid)]
      ∧ countChar ' ' ("file_entry_id = " ++ fid) = 2 + countChar ' ' fid := by
  constructor
  · by_cases h : o.deleteStatus = 200 <;> simp [delete_vectors_with_file_id, h]
  · simp [countChar, String.data_append, List.count_append]
    omega
